import Mathlib

/-!
Verification of the console-wallet dashboard controller
(src/applications/tari_console_wallet/src/ui/app.rs).

The controller resolves a base-node peer at startup (preferring a
persisted override over the configured peer), dispatches input and tick
events to a tab container, and composes the screen layout.

External collaborators (the persistent store, the public-key/address
codecs, the tab widgets, the status widget and the rendering backend)
are modelled as parameters: the store appears as its two read outcomes,
the codecs as a record of parse/print functions, and the tab widgets as
a record of event handlers over opaque tab and state types.
-/

namespace TariWalletUi

/-- Outcome of one persistent-store read:
Result of Option of String in the source
(get_client_key_value returns Ok(Option) or a storage error). -/
abbrev StoreRead := Except String (Option String)

/-- Peer capability features; the resolver marks the override peer as
COMMUNICATION_NODE (external tari_comms type, only the variants used). -/
inductive PeerFeatures where
  | COMMUNICATION_NODE
  | COMMUNICATION_CLIENT
  deriving DecidableEq, Repr

/-- Peer flags; PeerFlags.default in the source is the empty flag set,
modelled as bit value 0 (external tari_comms type). -/
structure PeerFlags where
  bits : Nat
  deriving DecidableEq, Repr

/-- The default (empty) peer flag set. -/
def PeerFlags.default : PeerFlags := ⟨0⟩

/-- A peer record, over abstract public-key, address and node-id types.
Mirrors the fields Peer.new receives in the source: public key, node id,
addresses, flags, features, supported protocols and user agent. -/
structure Peer (PK Addr NID : Type) where
  public_key : PK
  node_id : NID
  addresses : List Addr
  flags : PeerFlags
  features : PeerFeatures
  supported_protocols : List String
  user_agent : String
  deriving DecidableEq, Repr

/-- The external codec operations the resolver uses: hexadecimal
public-key parsing/printing, address parsing/printing, and node-id
derivation. Fallible operations return Except, as the Rust Results do. -/
structure Crypto (PK Addr NID : Type) where
  from_hex : String → Except String PK
  to_hex : PK → String
  parseAddr : String → Except String Addr
  addrToString : Addr → String
  nodeIdFromKey : PK → Except String NID

variable {PK Addr NID Tab S BN Out : Type}

/-- Embedding of get_custom_base_node_peer_from_db (app.rs lines
191-252). The wallet database is represented by the outcomes of its two
reads (public-key key, then address key); the function returns None on
a read error, a missing value, a failed parse or failed node-id
derivation, and otherwise the constructed override peer. -/
def get_custom_base_node_peer_from_db (crypto : Crypto PK Addr NID)
    (pkRead addrRead : StoreRead) : Option (Peer PK Addr NID) :=
  match pkRead with
  | Except.error _ => none
  | Except.ok custom_base_node_peer_pubkey =>
    match addrRead with
    | Except.error _ => none
    | Except.ok custom_base_node_peer_address =>
      match custom_base_node_peer_pubkey, custom_base_node_peer_address with
      | some public_key, some address =>
        let pub_key_str := crypto.from_hex public_key
        let addr_str := crypto.parseAddr address
        match pub_key_str, addr_str with
        | Except.ok pub_key, Except.ok addr =>
          match crypto.nodeIdFromKey pub_key with
          | Except.ok node_id =>
            some { public_key := pub_key
                   node_id := node_id
                   addresses := [addr]
                   flags := PeerFlags.default
                   features := PeerFeatures.COMMUNICATION_NODE
                   supported_protocols := []
                   user_agent := "" }
          | Except.error _ => none
        | _, _ => none
      | _, _ => none

/-- Modelled from the spec: TabsContainer (components/tabs_container.rs
is repository code not under src/). A named, ordered collection of tabs
with one active index; ordering is insertion order and is the
tab-cycling order. -/
structure TabsContainer (Tab : Type) where
  title : String
  titles : List String
  tabs : List Tab
  index : Nat
  deriving DecidableEq, Repr

/-- Modelled from the spec: a new container has no tabs and active
index 0. -/
def TabsContainer.new (title : String) : TabsContainer Tab :=
  { title := title, titles := [], tabs := [], index := 0 }

/-- Modelled from the spec: add appends a titled tab at the end of the
insertion order. -/
def TabsContainer.add (t : TabsContainer Tab) (tabTitle : String) (tab : Tab) :
    TabsContainer Tab :=
  { t with titles := t.titles ++ [tabTitle], tabs := t.tabs ++ [tab] }

/-- Modelled from the spec: next advances the active tab index by one,
wrapping past the last tab to the first. -/
def TabsContainer.next (t : TabsContainer Tab) : TabsContainer Tab :=
  { t with index := (t.index + 1) % t.tabs.length }

/-- Modelled from the spec: previous retreats the active tab index by
one, wrapping past the first tab to the last. -/
def TabsContainer.previous (t : TabsContainer Tab) : TabsContainer Tab :=
  { t with index := (t.index + t.tabs.length - 1) % t.tabs.length }

/-- A rectangular screen region (the tui Rect of the drawing backend). -/
structure Rect where
  x : Nat
  y : Nat
  width : Nat
  height : Nat
  deriving DecidableEq, Repr

/-- The event-handler and draw operations of the external tab widgets,
the status widget and the cached-state refresh, over opaque tab, state,
status-widget and draw-output types. Handlers receive the tab and
mutable access to the cached state, returned as a pair. -/
structure Ext (Tab S BN Out : Type) where
  on_key : Tab → S → Char → Tab × S
  on_up : Tab → S → Tab × S
  on_down : Tab → S → Tab × S
  on_esc : Tab → S → Tab × S
  on_backspace : Tab → S → Tab × S
  on_tick : Tab → S → Tab × S
  draw : Tab → Rect → S → Tab × Out
  draw_bn : BN → Rect → S → BN × Out
  draw_titles : List String → Nat → Rect → Out
  update_cache : S → S
  noOut : Out

/-- Modelled from the spec: event forwarding inside the container
delivers the event to the active tab (by index) together with mutable
access to the cached state; the handler's updated tab replaces the
active entry and the updated state is returned. -/
def TabsContainer.forward (t : TabsContainer Tab) (s : S)
    (handler : Tab → S → Tab × S) : TabsContainer Tab × S :=
  match t.tabs.get? t.index with
  | some tab =>
    let r := handler tab s
    ({ t with tabs := t.tabs.set t.index r.1 }, r.2)
  | none => (t, s)

/-- Modelled from the spec: key forwarding to the active tab. -/
def TabsContainer.on_key (ext : Ext Tab S BN Out) (t : TabsContainer Tab)
    (s : S) (c : Char) : TabsContainer Tab × S :=
  t.forward s (fun tab st => ext.on_key tab st c)

/-- Modelled from the spec: up-navigation forwarding to the active tab. -/
def TabsContainer.on_up (ext : Ext Tab S BN Out) (t : TabsContainer Tab)
    (s : S) : TabsContainer Tab × S :=
  t.forward s ext.on_up

/-- Modelled from the spec: down-navigation forwarding to the active tab. -/
def TabsContainer.on_down (ext : Ext Tab S BN Out) (t : TabsContainer Tab)
    (s : S) : TabsContainer Tab × S :=
  t.forward s ext.on_down

/-- Modelled from the spec: escape forwarding to the active tab. -/
def TabsContainer.on_esc (ext : Ext Tab S BN Out) (t : TabsContainer Tab)
    (s : S) : TabsContainer Tab × S :=
  t.forward s ext.on_esc

/-- Modelled from the spec: backspace forwarding to the active tab. -/
def TabsContainer.on_backspace (ext : Ext Tab S BN Out) (t : TabsContainer Tab)
    (s : S) : TabsContainer Tab × S :=
  t.forward s ext.on_backspace

/-- Modelled from the spec: tick forwarding to the active tab. -/
def TabsContainer.on_tick (ext : Ext Tab S BN Out) (t : TabsContainer Tab)
    (s : S) : TabsContainer Tab × S :=
  t.forward s ext.on_tick

/-- The dashboard session (struct App, app.rs lines 55-63): title, quit
flag, cached application state, tab container and base-node status
widget. The cached state, tab and status-widget types are opaque. -/
structure App (Tab S BN : Type) where
  title : String
  should_quit : Bool
  app_state : S
  tabs : TabsContainer Tab
  base_node_status : BN
  deriving DecidableEq, Repr

/-- Embedding of App.new (app.rs lines 66-120). The wallet database
appears as the two store-read outcomes; AppState.new, the three tab
constructors and BaseNode.new are external and appear as parameters.
The resolver runs first; the display pair seeded into the network tab
is the selected peer's public key as hex and its first address as a
string (empty when there is no address). -/
def App.new (crypto : Crypto PK Addr NID)
    (mkAppState : Peer PK Addr NID → Option (Peer PK Addr NID) → S)
    (txTab srTab : Tab) (mkNetworkTab : String → String → Tab) (bn0 : BN)
    (title : String) (pkRead addrRead : StoreRead)
    (base_node_config : Peer PK Addr NID) : App Tab S BN :=
  let custom_peer := get_custom_base_node_peer_from_db crypto pkRead addrRead
  let app_state := mkAppState base_node_config custom_peer
  let pair :=
    match custom_peer with
    | some cp =>
      let public_address :=
        match cp.addresses.head? with
        | some address => crypto.addrToString address
        | none => ""
      (crypto.to_hex cp.public_key, public_address)
    | none =>
      let public_address :=
        match base_node_config.addresses.head? with
        | some address => crypto.addrToString address
        | none => ""
      (crypto.to_hex base_node_config.public_key, public_address)
  let tabs :=
    (((TabsContainer.new title).add "Transactions" txTab).add
        "Send/Receive" srTab).add
      "Network" (mkNetworkTab pair.1 pair.2)
  { title := title
    should_quit := false
    app_state := app_state
    tabs := tabs
    base_node_status := bn0 }

/-- Embedding of App.on_control_key (app.rs lines 122-129): the
characters q and c set the quit flag; every other character is a
no-op. -/
def App.on_control_key (a : App Tab S BN) (c : Char) : App Tab S BN :=
  match c with
  | 'q' => { a with should_quit := true }
  | 'c' => { a with should_quit := true }
  | _ => a

/-- Embedding of App.on_key (app.rs lines 131-138): tab advances the
active tab; any other character is forwarded to the active tab with
mutable access to the cached state. -/
def App.on_key (ext : Ext Tab S BN Out) (a : App Tab S BN) (c : Char) :
    App Tab S BN :=
  match c with
  | '\t' => { a with tabs := a.tabs.next }
  | _ =>
    let r := TabsContainer.on_key ext a.tabs a.app_state c
    { a with tabs := r.1, app_state := r.2 }

/-- Embedding of App.on_up (app.rs lines 140-142). -/
def App.on_up (ext : Ext Tab S BN Out) (a : App Tab S BN) : App Tab S BN :=
  let r := TabsContainer.on_up ext a.tabs a.app_state
  { a with tabs := r.1, app_state := r.2 }

/-- Embedding of App.on_down (app.rs lines 144-146). -/
def App.on_down (ext : Ext Tab S BN Out) (a : App Tab S BN) : App Tab S BN :=
  let r := TabsContainer.on_down ext a.tabs a.app_state
  { a with tabs := r.1, app_state := r.2 }

/-- Embedding of App.on_right (app.rs lines 148-150): advance the
active tab, no forwarding. -/
def App.on_right (a : App Tab S BN) : App Tab S BN :=
  { a with tabs := a.tabs.next }

/-- Embedding of App.on_left (app.rs lines 152-154): retreat the active
tab, no forwarding. -/
def App.on_left (a : App Tab S BN) : App Tab S BN :=
  { a with tabs := a.tabs.previous }

/-- Embedding of App.on_esc (app.rs lines 156-158). -/
def App.on_esc (ext : Ext Tab S BN Out) (a : App Tab S BN) : App Tab S BN :=
  let r := TabsContainer.on_esc ext a.tabs a.app_state
  { a with tabs := r.1, app_state := r.2 }

/-- Embedding of App.on_backspace (app.rs lines 160-162). -/
def App.on_backspace (ext : Ext Tab S BN Out) (a : App Tab S BN) :
    App Tab S BN :=
  let r := TabsContainer.on_backspace ext a.tabs a.app_state
  { a with tabs := r.1, app_state := r.2 }

/-- Embedding of App.on_tick (app.rs lines 164-167): the cached-state
refresh (block_on of update_cache, a synchronous wait modelled as a
state transformer) completes first; the tick is then forwarded to the
active tab with the refreshed state. -/
def App.on_tick (ext : Ext Tab S BN Out) (a : App Tab S BN) : App Tab S BN :=
  let refreshed := ext.update_cache a.app_state
  let r := TabsContainer.on_tick ext a.tabs refreshed
  { a with tabs := r.1, app_state := r.2 }

/-- Modelled from the spec: the first split in App.draw caps the outer
frame at MAX_WIDTH columns (tui Layout with constraints Length
MAX_WIDTH then Min 0; the solver is external). -/
def capWidth (maxWidth : Nat) (f : Rect) : Rect :=
  { f with width := min maxWidth f.width }

/-- Modelled from the spec: a vertical split reserving the first n rows
(tui Layout with constraints Length n then Min 0). -/
def splitTop (n : Nat) (r : Rect) : Rect × Rect :=
  let h := min n r.height
  ({ r with height := h },
   { r with y := r.y + h, height := r.height - h })

/-- Modelled from the spec: a horizontal split into two halves (tui
Layout with two Percentage 50 constraints). -/
def splitHalves (r : Rect) : Rect × Rect :=
  let w := r.width / 2
  ({ r with width := w },
   { r with x := r.x + w, width := r.width - w })

/-- Modelled from the spec: draw_titles renders the tab-title strip
from the title list and the active index; it reads no session state
beyond them and mutates nothing. -/
def TabsContainer.draw_titles (ext : Ext Tab S BN Out)
    (t : TabsContainer Tab) (area : Rect) : Out :=
  ext.draw_titles t.titles t.index area

/-- Modelled from the spec: draw_content delegates drawing of the
content region to the active tab, which redraws itself (possibly
updating its own widget state) and is read-only with respect to the
cached application state, the tab set and the active index. -/
def TabsContainer.draw_content (ext : Ext Tab S BN Out)
    (t : TabsContainer Tab) (area : Rect) (s : S) : TabsContainer Tab × Out :=
  match t.tabs.get? t.index with
  | some tab =>
    let r := ext.draw tab area s
    ({ t with tabs := t.tabs.set t.index r.1 }, r.2)
  | none => (t, ext.noOut)

/-- Embedding of App.draw (app.rs lines 169-186): compute the
capped-width outer frame, split off a three-row title strip, split the
strip into halves, then delegate: tab titles into the left half, the
base-node status widget into the right half, the active tab's content
into the region below. Draw output is collected in call order. -/
def App.draw (ext : Ext Tab S BN Out) (maxWidth : Nat) (a : App Tab S BN)
    (f : Rect) : App Tab S BN × List Out :=
  let max_width_area := capWidth maxWidth f
  let title_chunks := splitTop 3 max_width_area
  let title_halves := splitHalves title_chunks.1
  let titlesOut := TabsContainer.draw_titles ext a.tabs title_halves.1
  let rBn := ext.draw_bn a.base_node_status title_halves.2 a.app_state
  let rContent :=
    TabsContainer.draw_content ext a.tabs title_chunks.2 a.app_state
  ({ a with tabs := rContent.1, base_node_status := rBn.1 },
   [titlesOut, rBn.2, rContent.2])

/-- The characters App.on_control_key treats as the quit signal:
q and c (app.rs lines 123-126). -/
def isQuitSignal (c : Char) : Bool :=
  c == 'q' || c == 'c'

/-- The display string of a peer's first address: the address printed,
or the empty string when the peer has no addresses (the match on
addresses.first in App.new). -/
def firstAddrString (crypto : Crypto PK Addr NID) (p : Peer PK Addr NID) :
    String :=
  match p.addresses.head? with
  | some address => crypto.addrToString address
  | none => ""

/-! ### Helper lemmas -/

theorem forward_index (t : TabsContainer Tab) (s : S)
    (handler : Tab → S → Tab × S) :
    (t.forward s handler).1.index = t.index := by
  unfold TabsContainer.forward
  cases t.tabs.get? t.index <;> rfl

theorem forward_titles (t : TabsContainer Tab) (s : S)
    (handler : Tab → S → Tab × S) :
    (t.forward s handler).1.titles = t.titles := by
  unfold TabsContainer.forward
  cases t.tabs.get? t.index <;> rfl

theorem forward_of_get (t : TabsContainer Tab) (s : S) (tab : Tab)
    (handler : Tab → S → Tab × S)
    (hget : t.tabs.get? t.index = some tab) :
    t.forward s handler =
      ({ t with tabs := t.tabs.set t.index (handler tab s).1 },
       (handler tab s).2) := by
  unfold TabsContainer.forward
  rw [hget]

/-! ### Concrete instances used by the witnesses -/

/-- A concrete two-tab session over Nat-valued tab, state and
status-widget types, used to exercise the dispatch theorems. -/
def app0 : App Nat Nat Nat :=
  { title := "w", should_quit := false, app_state := 0,
    tabs := { title := "w", titles := ["a", "b"], tabs := [5, 6], index := 0 },
    base_node_status := 0 }

/-- Concrete tab handlers over Nat-valued types, used to exercise the
dispatch theorems. -/
def ext0 : Ext Nat Nat Nat Nat :=
  { on_key := fun tab s c => (tab + 1, s + c.toNat)
    on_up := fun tab s => (tab + 2, s + 20)
    on_down := fun tab s => (tab + 3, s + 30)
    on_esc := fun tab s => (tab + 4, s + 40)
    on_backspace := fun tab s => (tab + 5, s + 50)
    on_tick := fun tab s => (tab + 6, s + 60)
    draw := fun tab _ s => (tab + 7, s + 70)
    draw_bn := fun bn _ s => (bn + 8, s + 80)
    draw_titles := fun titles i _ => titles.length + i
    update_cache := fun s => s + 100
    noOut := 0 }

/-- Concrete codecs over Nat-valued key, address and node-id types,
used to exercise the resolver theorems: a two-character string decodes
to key 1, a six-character string to address 7. -/
def crypto0 : Crypto Nat Nat Nat :=
  { from_hex := fun s =>
      if s.length = 2 then Except.ok 1 else Except.error "invalid hex"
    to_hex := fun _ => "aa"
    parseAddr := fun s =>
      if s.length = 6 then Except.ok 7 else Except.error "invalid address"
    addrToString := fun _ => "/ip4/1"
    nodeIdFromKey := fun k => Except.ok (k + 10) }

/-! ### Claim theorems -/

/-- Claim C6: on_control_key sets the quit flag exactly when the
character is the designated quit signal (q or c, as sent by the driving
loop for control-modified keys); otherwise it is a no-op, and in either
case no other field of the session changes. -/
theorem on_control_key_spec (a : App Tab S BN) (c : Char) :
    (a.on_control_key c =
      if isQuitSignal c then { a with should_quit := true } else a) ∧
    (a.on_control_key c).title = a.title ∧
    (a.on_control_key c).app_state = a.app_state ∧
    (a.on_control_key c).tabs = a.tabs ∧
    (a.on_control_key c).base_node_status = a.base_node_status ∧
    (isQuitSignal c = false → a.on_control_key c = a) := by
  have hmain : a.on_control_key c =
      if isQuitSignal c then { a with should_quit := true } else a := by
    unfold App.on_control_key
    split
    · simp [isQuitSignal]
    · simp [isQuitSignal]
    · rename_i h1 h2
      simp only [isQuitSignal]
      rw [if_neg]
      simp only [Bool.or_eq_true, beq_iff_eq]
      tauto
  refine ⟨hmain, ?_, ?_, ?_, ?_, ?_⟩ <;> rw [hmain]
  · split <;> rfl
  · split <;> rfl
  · split <;> rfl
  · split <;> rfl
  · intro hfalse
    simp [hfalse]

/-- Witness for C6 at the concrete non-quit character x: the no-op
branch of on_control_key. -/
theorem on_control_key_spec_witness :
    isQuitSignal 'x' = false ∧ app0.on_control_key 'x' = app0 :=
  ⟨by decide, (on_control_key_spec app0 'x').2.2.2.2.2 (by decide)⟩

/-- Claim C10: the quit flag is false at construction and monotone:
every operation except on_control_key leaves it unchanged, and
on_control_key only ever raises it (ors it with the quit-signal test),
never lowers it. -/
theorem should_quit_monotone (crypto : Crypto PK Addr NID)
    (mkAppState : Peer PK Addr NID → Option (Peer PK Addr NID) → S)
    (txTab srTab : Tab) (mkNetworkTab : String → String → Tab) (bn0 : BN)
    (title : String) (pkRead addrRead : StoreRead) (cfg : Peer PK Addr NID)
    (ext : Ext Tab S BN Out) (a : App Tab S BN) (c : Char) (maxWidth : Nat)
    (f : Rect) :
    (App.new crypto mkAppState txTab srTab mkNetworkTab bn0 title pkRead
        addrRead cfg : App Tab S BN).should_quit = false ∧
    (a.on_key ext c).should_quit = a.should_quit ∧
    (a.on_up ext).should_quit = a.should_quit ∧
    (a.on_down ext).should_quit = a.should_quit ∧
    a.on_right.should_quit = a.should_quit ∧
    a.on_left.should_quit = a.should_quit ∧
    (a.on_esc ext).should_quit = a.should_quit ∧
    (a.on_backspace ext).should_quit = a.should_quit ∧
    (a.on_tick ext).should_quit = a.should_quit ∧
    (a.draw ext maxWidth f).1.should_quit = a.should_quit ∧
    (a.on_control_key c).should_quit = (a.should_quit || isQuitSignal c) := by
  refine ⟨rfl, ?_, rfl, rfl, rfl, rfl, rfl, rfl, rfl, ?_, ?_⟩
  · unfold App.on_key
    split <;> rfl
  · unfold App.draw TabsContainer.draw_content
    cases a.tabs.tabs.get? a.tabs.index <;> rfl
  · unfold App.on_control_key
    split
    · simp [isQuitSignal]
    · simp [isQuitSignal]
    · rename_i h1 h2
      simp only [isQuitSignal]
      have hq : (c == 'q') = false := by
        simp only [beq_eq_false_iff_ne, ne_eq]
        exact h1
      have hc : (c == 'c') = false := by
        simp only [beq_eq_false_iff_ne, ne_eq]
        exact h2
      rw [hq, hc]
      simp

/-- Claim C7: on_key on the tab character advances the active tab index
by one with wrap-around, touching neither the cached state nor the tab
list; on any other character it forwards the key to the active tab with
mutable access to the cached state and leaves the active index
unchanged. -/
theorem on_key_spec (ext : Ext Tab S BN Out) (a : App Tab S BN) (c : Char)
    (tab : Tab) (hget : a.tabs.tabs.get? a.tabs.index = some tab) :
    (a.on_key ext '\t' = { a with tabs := a.tabs.next }) ∧
    ((a.on_key ext '\t').tabs.index =
      (a.tabs.index + 1) % a.tabs.tabs.length) ∧
    ((a.on_key ext '\t').app_state = a.app_state) ∧
    ((a.on_key ext '\t').tabs.tabs = a.tabs.tabs) ∧
    (c ≠ '\t' →
      a.on_key ext c =
        { a with
          tabs := { a.tabs with
            tabs := a.tabs.tabs.set a.tabs.index
              (ext.on_key tab a.app_state c).1 }
          app_state := (ext.on_key tab a.app_state c).2 } ∧
      (a.on_key ext c).tabs.index = a.tabs.index) := by
  refine ⟨rfl, rfl, rfl, rfl, ?_⟩
  intro hne
  have harm : a.on_key ext c =
      { a with tabs := (TabsContainer.on_key ext a.tabs a.app_state c).1,
               app_state := (TabsContainer.on_key ext a.tabs a.app_state c).2 } := by
    unfold App.on_key
    split
    · exact absurd rfl hne
    · rfl
  have hfwd := forward_of_get a.tabs a.app_state tab
      (fun tb st => ext.on_key tb st c) hget
  constructor
  · rw [harm]
    unfold TabsContainer.on_key
    rw [hfwd]
  · rw [harm]
    unfold TabsContainer.on_key
    rw [hfwd]

/-- Witness for C7 at the concrete character x on the two-tab session:
the key is forwarded to tab 5 and the index stays 0. -/
theorem on_key_spec_witness :
    app0.tabs.tabs.get? app0.tabs.index = some 5 ∧ ('x' : Char) ≠ '\t' ∧
    (app0.on_key ext0 'x' =
      { app0 with
        tabs := { app0.tabs with
          tabs := app0.tabs.tabs.set app0.tabs.index
            (ext0.on_key 5 app0.app_state 'x').1 }
        app_state := (ext0.on_key 5 app0.app_state 'x').2 } ∧
      (app0.on_key ext0 'x').tabs.index = app0.tabs.index) :=
  ⟨by decide, by decide,
   (on_key_spec ext0 app0 'x' 5 (by decide)).2.2.2.2 (by decide)⟩

/-- Claim C8: on_up, on_down, on_esc and on_backspace each forward the
event unconditionally to the active tab together with mutable access to
the cached state, and none of them changes which tab is active. -/
theorem nav_forwarding (ext : Ext Tab S BN Out) (a : App Tab S BN)
    (tab : Tab) (hget : a.tabs.tabs.get? a.tabs.index = some tab) :
    (a.on_up ext =
      { a with
        tabs := { a.tabs with
          tabs := a.tabs.tabs.set a.tabs.index (ext.on_up tab a.app_state).1 }
        app_state := (ext.on_up tab a.app_state).2 }) ∧
    (a.on_down ext =
      { a with
        tabs := { a.tabs with
          tabs := a.tabs.tabs.set a.tabs.index
            (ext.on_down tab a.app_state).1 }
        app_state := (ext.on_down tab a.app_state).2 }) ∧
    (a.on_esc ext =
      { a with
        tabs := { a.tabs with
          tabs := a.tabs.tabs.set a.tabs.index
            (ext.on_esc tab a.app_state).1 }
        app_state := (ext.on_esc tab a.app_state).2 }) ∧
    (a.on_backspace ext =
      { a with
        tabs := { a.tabs with
          tabs := a.tabs.tabs.set a.tabs.index
            (ext.on_backspace tab a.app_state).1 }
        app_state := (ext.on_backspace tab a.app_state).2 }) ∧
    (a.on_up ext).tabs.index = a.tabs.index ∧
    (a.on_down ext).tabs.index = a.tabs.index ∧
    (a.on_esc ext).tabs.index = a.tabs.index ∧
    (a.on_backspace ext).tabs.index = a.tabs.index := by
  refine ⟨?_, ?_, ?_, ?_, ?_, ?_, ?_, ?_⟩
  · unfold App.on_up TabsContainer.on_up
    rw [forward_of_get a.tabs a.app_state tab ext.on_up hget]
  · unfold App.on_down TabsContainer.on_down
    rw [forward_of_get a.tabs a.app_state tab ext.on_down hget]
  · unfold App.on_esc TabsContainer.on_esc
    rw [forward_of_get a.tabs a.app_state tab ext.on_esc hget]
  · unfold App.on_backspace TabsContainer.on_backspace
    rw [forward_of_get a.tabs a.app_state tab ext.on_backspace hget]
  · unfold App.on_up TabsContainer.on_up
    exact forward_index a.tabs a.app_state ext.on_up
  · unfold App.on_down TabsContainer.on_down
    exact forward_index a.tabs a.app_state ext.on_down
  · unfold App.on_esc TabsContainer.on_esc
    exact forward_index a.tabs a.app_state ext.on_esc
  · unfold App.on_backspace TabsContainer.on_backspace
    exact forward_index a.tabs a.app_state ext.on_backspace

/-- Witness for C8 on the two-tab session: each navigation event
reaches tab 5 and the active index stays 0. -/
theorem nav_forwarding_witness :
    app0.tabs.tabs.get? app0.tabs.index = some 5 ∧
    (app0.on_up ext0).tabs.index = app0.tabs.index ∧
    (app0.on_down ext0).tabs.index = app0.tabs.index ∧
    (app0.on_esc ext0).tabs.index = app0.tabs.index ∧
    (app0.on_backspace ext0).tabs.index = app0.tabs.index ∧
    app0.on_up ext0 =
      { app0 with
        tabs := { app0.tabs with
          tabs := app0.tabs.tabs.set app0.tabs.index
            (ext0.on_up 5 app0.app_state).1 }
        app_state := (ext0.on_up 5 app0.app_state).2 } :=
  ⟨by decide,
   (nav_forwarding ext0 app0 5 (by decide)).2.2.2.2.1,
   (nav_forwarding ext0 app0 5 (by decide)).2.2.2.2.2.1,
   (nav_forwarding ext0 app0 5 (by decide)).2.2.2.2.2.2.1,
   (nav_forwarding ext0 app0 5 (by decide)).2.2.2.2.2.2.2,
   (nav_forwarding ext0 app0 5 (by decide)).1⟩

/-- Claim C4: on_tick first completes the cached-state refresh and only
then forwards the tick to the active tab: the tab's tick handler is
applied to the fully refreshed snapshot update_cache of the current
state, never to a partial one. -/
theorem on_tick_refresh_before_forward (ext : Ext Tab S BN Out)
    (a : App Tab S BN) (tab : Tab)
    (hget : a.tabs.tabs.get? a.tabs.index = some tab) :
    a.on_tick ext =
      { a with
        tabs := { a.tabs with
          tabs := a.tabs.tabs.set a.tabs.index
            (ext.on_tick tab (ext.update_cache a.app_state)).1 }
        app_state := (ext.on_tick tab (ext.update_cache a.app_state)).2 } := by
  unfold App.on_tick TabsContainer.on_tick
  dsimp only
  rw [forward_of_get a.tabs (ext.update_cache a.app_state) tab ext.on_tick hget]

/-- Witness for C4 on the two-tab session: the tick handler of tab 5
receives the refreshed state 100 = update_cache 0, not the stale 0. -/
theorem on_tick_refresh_before_forward_witness :
    app0.tabs.tabs.get? app0.tabs.index = some 5 ∧
    app0.on_tick ext0 =
      { app0 with
        tabs := { app0.tabs with
          tabs := app0.tabs.tabs.set app0.tabs.index
            (ext0.on_tick 5 (ext0.update_cache app0.app_state)).1 }
        app_state := (ext0.on_tick 5 (ext0.update_cache app0.app_state)).2 } :=
  ⟨by decide, on_tick_refresh_before_forward ext0 app0 5 (by decide)⟩

theorem cycle_next_prev (i N : Nat) (h : i < N) :
    ((i + 1) % N + N - 1) % N = i := by
  rcases Nat.lt_or_ge (i + 1) N with h1 | h1
  · rw [Nat.mod_eq_of_lt h1]
    have he : i + 1 + N - 1 = i + N := by omega
    rw [he, Nat.add_mod_right, Nat.mod_eq_of_lt h]
  · have he : i + 1 = N := by omega
    rw [he, Nat.mod_self]
    have he2 : 0 + N - 1 = i := by omega
    rw [he2, Nat.mod_eq_of_lt h]

theorem cycle_prev_next (i N : Nat) (h : i < N) :
    ((i + N - 1) % N + 1) % N = i := by
  have hN : 0 < N := by omega
  rcases Nat.eq_zero_or_pos i with h0 | h0
  · subst h0
    have he : 0 + N - 1 = N - 1 := by omega
    have hlt : N - 1 < N := by omega
    rw [he, Nat.mod_eq_of_lt hlt]
    have he2 : N - 1 + 1 = N := by omega
    rw [he2, Nat.mod_self]
  · have he : i + N - 1 = (i - 1) + N := by omega
    have hlt : i - 1 < N := by omega
    rw [he, Nat.add_mod_right, Nat.mod_eq_of_lt hlt]
    have he2 : i - 1 + 1 = i := by omega
    rw [he2, Nat.mod_eq_of_lt h]

theorem on_right_iterate (n : Nat) :
    ∀ (a : App Tab S BN), a.tabs.index < a.tabs.tabs.length →
      App.on_right^[n] a =
        { a with tabs := { a.tabs with
            index := (a.tabs.index + n) % a.tabs.tabs.length } } := by
  induction n with
  | zero =>
    intro a h
    rw [Function.iterate_zero, Nat.add_zero, Nat.mod_eq_of_lt h]
    rfl
  | succ n ih =>
    intro a h
    have hN : 0 < a.tabs.tabs.length := Nat.lt_of_le_of_lt (Nat.zero_le _) h
    have h2 : a.on_right.tabs.index < a.on_right.tabs.tabs.length := by
      show (a.tabs.index + 1) % a.tabs.tabs.length < a.tabs.tabs.length
      exact Nat.mod_lt _ hN
    have harith :
        ((a.tabs.index + 1) % a.tabs.tabs.length + n) % a.tabs.tabs.length =
          (a.tabs.index + (n + 1)) % a.tabs.tabs.length := by
      rw [Nat.mod_add_mod]
      congr 1
      omega
    rw [Function.iterate_succ_apply, ih a.on_right h2]
    show ({ a with tabs := { a.tabs with
        index := ((a.tabs.index + 1) % a.tabs.tabs.length + n) %
          a.tabs.tabs.length } } : App Tab S BN) =
      { a with tabs := { a.tabs with
        index := (a.tabs.index + (n + 1)) % a.tabs.tabs.length } }
    rw [harith]

/-- Claim C9: tab cycling is a total cyclic permutation over the N
tabs: advancing N times from any in-range active index restores the
whole session, retreat is the inverse of advance on both sides, and
neither advance nor retreat forwards the event to any tab or touches
the cached state. -/
theorem tab_cycling (a : App Tab S BN)
    (h : a.tabs.index < a.tabs.tabs.length) :
    App.on_right^[a.tabs.tabs.length] a = a ∧
    a.on_right.on_left = a ∧
    a.on_left.on_right = a ∧
    a.on_right.tabs.tabs = a.tabs.tabs ∧
    a.on_right.app_state = a.app_state ∧
    a.on_left.tabs.tabs = a.tabs.tabs ∧
    a.on_left.app_state = a.app_state := by
  refine ⟨?_, ?_, ?_, rfl, rfl, rfl, rfl⟩
  · rw [on_right_iterate a.tabs.tabs.length a h, Nat.add_mod_right,
      Nat.mod_eq_of_lt h]
  · show ({ a with tabs := { a.tabs with
        index := ((a.tabs.index + 1) % a.tabs.tabs.length +
          a.tabs.tabs.length - 1) % a.tabs.tabs.length } } : App Tab S BN) = a
    rw [cycle_next_prev a.tabs.index a.tabs.tabs.length h]
  · show ({ a with tabs := { a.tabs with
        index := ((a.tabs.index + a.tabs.tabs.length - 1) %
          a.tabs.tabs.length + 1) % a.tabs.tabs.length } } : App Tab S BN) = a
    rw [cycle_prev_next a.tabs.index a.tabs.tabs.length h]

/-- Witness for C9 on the two-tab session: advancing twice restores it
and left/right cancel. -/
theorem tab_cycling_witness :
    app0.tabs.index < app0.tabs.tabs.length ∧
    (App.on_right^[app0.tabs.tabs.length] app0 = app0 ∧
     app0.on_right.on_left = app0 ∧
     app0.on_left.on_right = app0 ∧
     app0.on_right.tabs.tabs = app0.tabs.tabs ∧
     app0.on_right.app_state = app0.app_state ∧
     app0.on_left.tabs.tabs = app0.tabs.tabs ∧
     app0.on_left.app_state = app0.app_state) :=
  ⟨by decide, tab_cycling app0 (by decide)⟩

/-- Claim C5: draw is read-only with respect to application state: it
changes neither the quit flag, nor the cached state, nor the tab set
(count, titles) and active index, nor the title; its only output is the
three delegated drawings of the computed regions (tab titles in the
left half of the capped-width title strip, status widget in the right
half, active tab content below). -/
theorem draw_read_only (ext : Ext Tab S BN Out) (maxWidth : Nat)
    (a : App Tab S BN) (f : Rect) :
    (a.draw ext maxWidth f).1.should_quit = a.should_quit ∧
    (a.draw ext maxWidth f).1.app_state = a.app_state ∧
    (a.draw ext maxWidth f).1.tabs.index = a.tabs.index ∧
    (a.draw ext maxWidth f).1.tabs.tabs.length = a.tabs.tabs.length ∧
    (a.draw ext maxWidth f).1.tabs.titles = a.tabs.titles ∧
    (a.draw ext maxWidth f).1.title = a.title ∧
    (a.draw ext maxWidth f).2 =
      [ext.draw_titles a.tabs.titles a.tabs.index
         (splitHalves (splitTop 3 (capWidth maxWidth f)).1).1,
       (ext.draw_bn a.base_node_status
         (splitHalves (splitTop 3 (capWidth maxWidth f)).1).2 a.app_state).2,
       (TabsContainer.draw_content ext a.tabs
         (splitTop 3 (capWidth maxWidth f)).2 a.app_state).2] := by
  refine ⟨?_, ?_, ?_, ?_, ?_, ?_, ?_⟩ <;>
    unfold App.draw TabsContainer.draw_content TabsContainer.draw_titles <;>
    cases a.tabs.tabs.get? a.tabs.index <;>
    simp [List.length_set]

/-- A concrete statically configured peer over Nat-valued types, used
to exercise the resolver theorems. -/
def cfg0 : Peer Nat Nat Nat :=
  { public_key := 2, node_id := 3, addresses := [9],
    flags := PeerFlags.default,
    features := PeerFeatures.COMMUNICATION_CLIENT,
    supported_protocols := [], user_agent := "cfg" }

/-- A concrete AppState constructor for the witnesses: state 1 when a
custom peer was found, 0 otherwise. -/
def mkAppState0 : Peer Nat Nat Nat → Option (Peer Nat Nat Nat) → Nat :=
  fun _ custom =>
    match custom with
    | some _ => 1
    | none => 0

/-- A concrete network-tab constructor for the witnesses, recording the
lengths of the seeded display pair. -/
def mkNetworkTab0 : String → String → Nat :=
  fun pkStr addrStr => pkStr.length * 100 + addrStr.length

/-- The override peer crypto0 produces from the stored pair
("aa", "/ip4/1"). -/
def peerOverride0 : Peer Nat Nat Nat :=
  { public_key := 1, node_id := 11, addresses := [7],
    flags := PeerFlags.default,
    features := PeerFeatures.COMMUNICATION_NODE,
    supported_protocols := [], user_agent := "" }

/-- Claim C1: resolution cannot fail: for every combination of
store-read and parse outcomes App.new seeds the network tab from a
usable peer, the stored override when one was resolved and the
configured peer otherwise; the seeded display pair is the selected
peer's public key as hex and its first address as a string, with the
empty string when the peer has no addresses. -/
theorem resolution_total (crypto : Crypto PK Addr NID)
    (mkAppState : Peer PK Addr NID → Option (Peer PK Addr NID) → S)
    (txTab srTab : Tab) (mkNetworkTab : String → String → Tab) (bn0 : BN)
    (title : String) (pkRead addrRead : StoreRead)
    (cfg : Peer PK Addr NID) :
    (get_custom_base_node_peer_from_db crypto pkRead addrRead = none →
      (get_custom_base_node_peer_from_db crypto pkRead addrRead).getD cfg =
        cfg) ∧
    (∀ p, get_custom_base_node_peer_from_db crypto pkRead addrRead = some p →
      (get_custom_base_node_peer_from_db crypto pkRead addrRead).getD cfg =
        p) ∧
    (App.new crypto mkAppState txTab srTab mkNetworkTab bn0 title pkRead
        addrRead cfg : App Tab S BN).tabs.tabs =
      [txTab, srTab,
       mkNetworkTab
         (crypto.to_hex
           ((get_custom_base_node_peer_from_db crypto pkRead
               addrRead).getD cfg).public_key)
         (firstAddrString crypto
           ((get_custom_base_node_peer_from_db crypto pkRead
               addrRead).getD cfg))] ∧
    (App.new crypto mkAppState txTab srTab mkNetworkTab bn0 title pkRead
        addrRead cfg : App Tab S BN).tabs.titles =
      ["Transactions", "Send/Receive", "Network"] ∧
    (App.new crypto mkAppState txTab srTab mkNetworkTab bn0 title pkRead
        addrRead cfg : App Tab S BN).tabs.index = 0 := by
  refine ⟨?_, ?_, ?_, rfl, rfl⟩
  · intro h
    rw [h]
    rfl
  · intro p h
    rw [h]
    rfl
  · cases hc : get_custom_base_node_peer_from_db crypto pkRead addrRead with
    | none =>
      simp [App.new, hc, TabsContainer.new, TabsContainer.add,
        firstAddrString]
    | some p =>
      simp [App.new, hc, TabsContainer.new, TabsContainer.add,
        firstAddrString]

/-- Witness for C1: a failed public-key read falls back to the
configured peer and its display pair; a fully valid stored pair selects
the override. -/
theorem resolution_total_witness :
    get_custom_base_node_peer_from_db crypto0 (Except.error "boom")
        (Except.ok none) = none ∧
    (get_custom_base_node_peer_from_db crypto0 (Except.error "boom")
        (Except.ok none)).getD cfg0 = cfg0 ∧
    (App.new crypto0 mkAppState0 50 60 mkNetworkTab0 0 "w"
        (Except.error "boom") (Except.ok none) cfg0).tabs.tabs =
      [50, 60,
       mkNetworkTab0
         (crypto0.to_hex
           ((get_custom_base_node_peer_from_db crypto0 (Except.error "boom")
               (Except.ok none)).getD cfg0).public_key)
         (firstAddrString crypto0
           ((get_custom_base_node_peer_from_db crypto0 (Except.error "boom")
               (Except.ok none)).getD cfg0))] ∧
    get_custom_base_node_peer_from_db crypto0 (Except.ok (some "aa"))
        (Except.ok (some "/ip4/1")) = some peerOverride0 ∧
    (get_custom_base_node_peer_from_db crypto0 (Except.ok (some "aa"))
        (Except.ok (some "/ip4/1"))).getD cfg0 = peerOverride0 :=
  ⟨by decide,
   (resolution_total crypto0 mkAppState0 50 60 mkNetworkTab0 0 "w"
       (Except.error "boom") (Except.ok none) cfg0).1 (by decide),
   (resolution_total crypto0 mkAppState0 50 60 mkNetworkTab0 0 "w"
       (Except.error "boom") (Except.ok none) cfg0).2.2.1,
   by decide,
   (resolution_total crypto0 mkAppState0 50 60 mkNetworkTab0 0 "w"
       (Except.ok (some "aa")) (Except.ok (some "/ip4/1")) cfg0).2.1
     peerOverride0 (by decide)⟩

/-- Claim C2: when both store reads return present values and the hex
public key, the address and the node-id derivation all succeed,
resolution yields the override peer: the parsed key, the derived node
id, the single parsed address, default flags, the communication-node
feature and an empty supplementary list; the network tab is seeded with
the printed key and address, which equal the stored pair whenever the
external codecs round-trip them. -/
theorem override_success (crypto : Crypto PK Addr NID)
    (mkAppState : Peer PK Addr NID → Option (Peer PK Addr NID) → S)
    (txTab srTab : Tab) (mkNetworkTab : String → String → Tab) (bn0 : BN)
    (title : String) (cfg : Peer PK Addr NID)
    (pkHex addrStr : String) (pk : PK) (ad : Addr) (nid : NID)
    (h1 : crypto.from_hex pkHex = Except.ok pk)
    (h2 : crypto.parseAddr addrStr = Except.ok ad)
    (h3 : crypto.nodeIdFromKey pk = Except.ok nid) :
    get_custom_base_node_peer_from_db crypto (Except.ok (some pkHex))
        (Except.ok (some addrStr)) =
      some { public_key := pk, node_id := nid, addresses := [ad],
             flags := PeerFlags.default,
             features := PeerFeatures.COMMUNICATION_NODE,
             supported_protocols := [], user_agent := "" } ∧
    (App.new crypto mkAppState txTab srTab mkNetworkTab bn0 title
        (Except.ok (some pkHex)) (Except.ok (some addrStr)) cfg :
        App Tab S BN).tabs.tabs =
      [txTab, srTab,
       mkNetworkTab (crypto.to_hex pk) (crypto.addrToString ad)] ∧
    (crypto.to_hex pk = pkHex → crypto.addrToString ad = addrStr →
      (App.new crypto mkAppState txTab srTab mkNetworkTab bn0 title
          (Except.ok (some pkHex)) (Except.ok (some addrStr)) cfg :
          App Tab S BN).tabs.tabs =
        [txTab, srTab, mkNetworkTab pkHex addrStr]) := by
  have hres : get_custom_base_node_peer_from_db crypto
      (Except.ok (some pkHex)) (Except.ok (some addrStr)) =
        some { public_key := pk, node_id := nid, addresses := [ad],
               flags := PeerFlags.default,
               features := PeerFeatures.COMMUNICATION_NODE,
               supported_protocols := [], user_agent := "" } := by
    simp [get_custom_base_node_peer_from_db, h1, h2, h3]
  have htabs : (App.new crypto mkAppState txTab srTab mkNetworkTab bn0 title
      (Except.ok (some pkHex)) (Except.ok (some addrStr)) cfg :
      App Tab S BN).tabs.tabs =
      [txTab, srTab,
       mkNetworkTab (crypto.to_hex pk) (crypto.addrToString ad)] := by
    simp [App.new, hres, TabsContainer.new, TabsContainer.add]
  refine ⟨hres, htabs, ?_⟩
  intro h4 h5
  rw [htabs, h4, h5]

/-- Witness for C2: the stored pair ("aa", "/ip4/1") decodes under
crypto0 to key 1, address 7 and node id 11, the resolver returns that
override, and the round-tripping codecs reproduce the stored pair in
the network tab seed. -/
theorem override_success_witness :
    crypto0.from_hex "aa" = Except.ok 1 ∧
    crypto0.parseAddr "/ip4/1" = Except.ok 7 ∧
    crypto0.nodeIdFromKey 1 = Except.ok 11 ∧
    crypto0.to_hex 1 = "aa" ∧
    crypto0.addrToString 7 = "/ip4/1" ∧
    (App.new crypto0 mkAppState0 50 60 mkNetworkTab0 0 "w"
        (Except.ok (some "aa")) (Except.ok (some "/ip4/1")) cfg0).tabs.tabs =
      [50, 60, mkNetworkTab0 "aa" "/ip4/1"] :=
  ⟨by rfl, by rfl, by rfl, by rfl, by rfl,
   (override_success crypto0 mkAppState0 50 60 mkNetworkTab0 0 "w" cfg0
       "aa" "/ip4/1" 1 7 11 (by rfl) (by rfl) (by rfl)).2.2
     (by rfl) (by rfl)⟩

/-- Claim C3: on any failure — a storage error on either read, a
missing value on either read, a failed public-key or address parse, or
a failed node-id derivation — the resolver returns no override and
App.new uses the statically configured peer unchanged for both the
cached state seed and the network-tab display pair; no error escapes
(the embedding is total). -/
theorem override_fallback (crypto : Crypto PK Addr NID)
    (mkAppState : Peer PK Addr NID → Option (Peer PK Addr NID) → S)
    (txTab srTab : Tab) (mkNetworkTab : String → String → Tab) (bn0 : BN)
    (title : String) (pkRead addrRead : StoreRead) (cfg : Peer PK Addr NID)
    (hfail :
      (∃ e, pkRead = Except.error e) ∨
      (∃ e, addrRead = Except.error e) ∨
      pkRead = Except.ok none ∨
      addrRead = Except.ok none ∨
      (∃ pkHex addrStr, pkRead = Except.ok (some pkHex) ∧
        addrRead = Except.ok (some addrStr) ∧
        ((∃ e, crypto.from_hex pkHex = Except.error e) ∨
         (∃ e, crypto.parseAddr addrStr = Except.error e) ∨
         (∃ pk, crypto.from_hex pkHex = Except.ok pk ∧
           ∃ e, crypto.nodeIdFromKey pk = Except.error e)))) :
    get_custom_base_node_peer_from_db crypto pkRead addrRead = none ∧
    (App.new crypto mkAppState txTab srTab mkNetworkTab bn0 title pkRead
        addrRead cfg : App Tab S BN).app_state = mkAppState cfg none ∧
    (App.new crypto mkAppState txTab srTab mkNetworkTab bn0 title pkRead
        addrRead cfg : App Tab S BN).tabs.tabs =
      [txTab, srTab,
       mkNetworkTab (crypto.to_hex cfg.public_key)
         (firstAddrString crypto cfg)] := by
  have hnone : get_custom_base_node_peer_from_db crypto pkRead addrRead =
      none := by
    rcases hfail with ⟨e, he⟩ | ⟨e, he⟩ | he | he |
      ⟨pkHex, addrStr, hpk, haddr, hparse⟩
    · simp [get_custom_base_node_peer_from_db, he]
    · cases hp : pkRead with
      | error e2 => simp [get_custom_base_node_peer_from_db, hp]
      | ok v => simp [get_custom_base_node_peer_from_db, hp, he]
    · cases ha : addrRead with
      | error e2 => simp [get_custom_base_node_peer_from_db, he, ha]
      | ok v => simp [get_custom_base_node_peer_from_db, he, ha]
    · cases hp : pkRead with
      | error e2 => simp [get_custom_base_node_peer_from_db, hp]
      | ok v =>
        cases v with
        | none => simp [get_custom_base_node_peer_from_db, hp, he]
        | some pkHex => simp [get_custom_base_node_peer_from_db, hp, he]
    · rcases hparse with ⟨e, hep⟩ | ⟨e, hea⟩ | ⟨pk, hok, e, hen⟩
      · simp [get_custom_base_node_peer_from_db, hpk, haddr, hep]
      · cases hfx : crypto.from_hex pkHex with
        | error e2 =>
          simp [get_custom_base_node_peer_from_db, hpk, haddr, hfx]
        | ok pk =>
          simp [get_custom_base_node_peer_from_db, hpk, haddr, hfx, hea]
      · cases hpa : crypto.parseAddr addrStr with
        | error e2 =>
          cases hfx : crypto.from_hex pkHex with
          | error e3 =>
            simp [get_custom_base_node_peer_from_db, hpk, haddr, hfx]
          | ok pk2 =>
            simp [get_custom_base_node_peer_from_db, hpk, haddr, hfx, hpa]
        | ok ad =>
          simp [get_custom_base_node_peer_from_db, hpk, haddr, hok, hpa, hen]
  refine ⟨hnone, ?_, ?_⟩
  · simp [App.new, hnone]
  · simp [App.new, hnone, TabsContainer.new, TabsContainer.add,
      firstAddrString]

/-- Witness for C3: a stored pair whose public key is not valid hex
("z" has odd length) is discarded and the configured peer cfg0 seeds
both the state and the display pair. -/
theorem override_fallback_witness :
    get_custom_base_node_peer_from_db crypto0 (Except.ok (some "z"))
        (Except.ok (some "/ip4/1")) = none ∧
    (App.new crypto0 mkAppState0 50 60 mkNetworkTab0 0 "w"
        (Except.ok (some "z")) (Except.ok (some "/ip4/1")) cfg0).app_state =
      mkAppState0 cfg0 none ∧
    (App.new crypto0 mkAppState0 50 60 mkNetworkTab0 0 "w"
        (Except.ok (some "z")) (Except.ok (some "/ip4/1")) cfg0).tabs.tabs =
      [50, 60,
       mkNetworkTab0 (crypto0.to_hex cfg0.public_key)
         (firstAddrString crypto0 cfg0)] :=
  override_fallback crypto0 mkAppState0 50 60 mkNetworkTab0 0 "w"
    (Except.ok (some "z")) (Except.ok (some "/ip4/1")) cfg0
    (Or.inr (Or.inr (Or.inr (Or.inr
      ⟨"z", "/ip4/1", rfl, rfl, Or.inl ⟨"invalid hex", by rfl⟩⟩))))

end TariWalletUi
